import Mathlib

/-!
Verification development for the INA power-monitor driver (src/INA.h).

The repository ships only the class header: struct `inaDet`, the model
enumeration, the register constants and the public method signatures are in
src/INA.h, while every method body lives outside the repository.  Data model,
constants and signatures below are embedded from the header; behaviour of the
method bodies is modelled from the specification, each such definition marked
with a doc comment starting "Modelled from the spec:".

Machine integers are embedded as `Nat`/`Int` with explicit `% 2^w` where the
width matters (uint8 parameters, uint16 register words).
-/

namespace INA

/-- The `ina_Type` enumeration of src/INA.h (INA220 is commented out there
because it is indistinguishable from INA219). -/
inductive InaType where
  | INA219
  | INA226
  | INA230
  | INA231
  | INA233
  | INA250
  | INA253
  | INA260
  | INA3221
  | UNKNOWN
deriving DecidableEq, Repr

/-- The `inaDet` structure of src/INA.h: one record of per-device values.
`deviceName` (a `char[7]` in the header) is embedded as a `String`. -/
structure InaDet where
  address : Nat
  type : InaType
  calibration : Nat
  shuntVoltage_LSB : Nat
  busVoltage_LSB : Nat
  current_LSB : Nat
  power_LSB : Nat
  programmableGain : Nat
  operatingMode : Nat
  calibConst : Nat
  powerConstant : Nat
  maxBusAmps : Nat
  microOhmR : Nat
  deviceName : String
deriving DecidableEq, Repr

/-! Register and device constants from src/INA.h. -/

def INA_CONFIGURATION_REGISTER : Nat := 0

def INA_SHUNT_VOLTAGE_REGISTER : Nat := 1

def INA_BUS_VOLTAGE_REGISTER : Nat := 2

def INA_POWER_REGISTER : Nat := 3

def INA_CURRENT_REGISTER : Nat := 4

def INA_CALIBRATION_REGISTER : Nat := 5

def INA_MASK_ENABLE_REGISTER : Nat := 6

def INA_ALERT_LIMIT_REGISTER : Nat := 7

def INA_ALERT_MASK : Nat := 0x03FF

def INA_ALERT_SHUNT_OVER_VOLT_BIT : Nat := 15

def INA_CONFIG_MODE_MASK : Nat := 0x0007

def INA219_BUS_VOLTAGE_LSB : Nat := 400

def INA219_SHUNT_VOLTAGE_LSB : Nat := 100

def INA226_BUS_VOLTAGE_LSB : Nat := 125

def INA226_SHUNT_VOLTAGE_LSB : Nat := 25

def UINT8_MAX : Nat := 255

/-- INA_MODE_CONTINUOUS_BOTH, the last member of `ina_Mode` and the default
continuous operating mode. -/
def INA_MODE_CONTINUOUS_BOTH : Nat := 7

/-- The error kinds of spec section 7. -/
inductive InaError where
  | DeviceNotPresent
  | UnknownModel
  | CalibrationOutOfRange
  | UnsupportedFeature
  | UncalibratedRead
  | TransportError
deriving DecidableEq, Repr

/-- Modelled from the spec: the per-model fixed bus-voltage LSB constant
(src/INA.h gives the INA219 and INA226 values; the other models are
226-class in this respect). Units: 10 microvolt per count. -/
def busVoltageLSBOf : InaType → Nat
  | .INA219 => INA219_BUS_VOLTAGE_LSB
  | _ => INA226_BUS_VOLTAGE_LSB

/-- Modelled from the spec: the per-model fixed shunt-voltage LSB constant
(src/INA.h gives the INA219 and INA226 values). Units: tenths of a
microvolt per count. -/
def shuntVoltageLSBOf : InaType → Nat
  | .INA219 => INA219_SHUNT_VOLTAGE_LSB
  | _ => INA226_SHUNT_VOLTAGE_LSB

/-- Modelled from the spec: the model-specific datasheet calibration constant
`calibConst` of spec section 4.2, scaled so that
`calibConst / (currentLSB_microAmps * shunt_microOhms / 1000000)` yields the
calibration register value (0.00512 for the 226 class, 0.04096 for the
INA219 class, in those units). -/
def calibConstOf : InaType → Nat
  | .INA219 => 40960
  | _ => 5120

/-- Modelled from the spec: the model-specific `powerConstant` of spec
section 4.2, "typically 20-25x currentLSB per datasheet convention"
(20 for the INA219 class, 25 for the 226 class). -/
def powerConstantOf : InaType → Nat
  | .INA219 => 20
  | _ => 25

/-- Modelled from the spec: the model's minimum current-LSB step of spec
section 4.2.  The spec names the step without quantifying it per model; the
finest granularity representable in the integer microamp field is one
microamp, used here for every model. -/
def minLSBStepOf : InaType → Nat
  | _ => 1

/-- Round `x` up to the nearest multiple of `step` (identity when `step` is
zero). -/
def roundUpToMultiple (x step : Nat) : Nat :=
  if step = 0 then x else ((x + step - 1) / step) * step

/-- Result of the calibration engine: derived current LSB (microamps),
power LSB (microwatts) and the calibration register value. -/
structure CalibOut where
  currentLSB : Nat
  powerLSB : Nat
  calibration : Nat
deriving DecidableEq, Repr

/-- Modelled from the spec: the pure calibration engine of spec section 4.2
(the bodies of `initINA219_INA220`/`initINA226` are not in src/).
Step 1: `currentLSB = maxBusAmps * 1000000 / 32767`, rounded up to the
nearest multiple of the model's minimum LSB step.
Step 2: `calibrationRegisterValue = calibConst / (currentLSB *
shuntResistanceMicroOhms / 1000000)`.
Step 4: a result of 0 or above the 15-bit range fails with
`CalibrationOutOfRange`; a `maxBusAmps` or shunt resistance of 0 is rejected
outright. -/
def calibrate (model : InaType) (maxBusAmps shuntResistanceMicroOhms : Nat) :
    Except InaError CalibOut :=
  if maxBusAmps = 0 then .error .CalibrationOutOfRange
  else if shuntResistanceMicroOhms = 0 then .error .CalibrationOutOfRange
  else
    let lsb := roundUpToMultiple (maxBusAmps * 1000000 / 32767) (minLSBStepOf model)
    let denom := lsb * shuntResistanceMicroOhms / 1000000
    if denom = 0 then .error .CalibrationOutOfRange
    else
      let cal := calibConstOf model / denom
      if cal = 0 ∨ 0x7FFF < cal then .error .CalibrationOutOfRange
      else .ok ⟨lsb, lsb * powerConstantOf model, cal⟩

/-- Modelled from the spec: the display name of each model
(`deviceName` field of `inaDet`, a `char[7]` in src/INA.h). -/
def deviceNameOf : InaType → String
  | .INA219 => "INA219"
  | .INA226 => "INA226"
  | .INA230 => "INA230"
  | .INA231 => "INA231"
  | .INA233 => "INA233"
  | .INA250 => "INA250"
  | .INA253 => "INA253"
  | .INA260 => "INA260"
  | .INA3221 => "INA322"
  | .UNKNOWN => "UNKNOW"

/-- Modelled from the spec: chip identification (spec section 4.1) populates
a fresh, not-yet-calibrated descriptor for the classified model: calibration
register value 0 signals "not yet calibrated", the voltage LSBs and
datasheet constants are the model's, and the operating mode defaults to
continuous-both. -/
def identifyDet (model : InaType) (address : Nat) : InaDet where
  address := address % 128
  type := model
  calibration := 0
  shuntVoltage_LSB := shuntVoltageLSBOf model
  busVoltage_LSB := busVoltageLSBOf model
  current_LSB := 0
  power_LSB := 0
  programmableGain := 0
  operatingMode := INA_MODE_CONTINUOUS_BOTH
  calibConst := calibConstOf model
  powerConstant := powerConstantOf model
  maxBusAmps := 0
  microOhmR := 0
  deviceName := deviceNameOf model

/-- Modelled from the spec: applying the calibration engine's result to a
descriptor.  The uint8 `maxBusAmps` and uint32 `microOhmR` initialization
values are stored back into the descriptor fields of the same width
(src/INA.h lines 63-64), hence the `% 256` / `% 2^32` truncation at the
call boundary. -/
def calibrateDet (d : InaDet) (maxBusAmps microOhmR : Nat) :
    Except InaError InaDet :=
  match calibrate d.type (maxBusAmps % 256) (microOhmR % 4294967296) with
  | .error e => .error e
  | .ok c => .ok { d with
      calibration := c.calibration
      current_LSB := c.currentLSB
      power_LSB := c.powerLSB
      maxBusAmps := maxBusAmps % 256
      microOhmR := microOhmR % 4294967296 }

/-- Modelled from the spec: `begin` (src/INA.h line 138, body not in src/)
identifies the chip at an address and calibrates it from the user-supplied
physical parameters.  Its `maxBusAmps` parameter is a `const uint8_t` of
whole amperes. -/
def beginDet (model : InaType) (address maxBusAmps microOhmR : Nat) :
    Except InaError InaDet :=
  calibrateDet (identifyDet model address) maxBusAmps microOhmR

/-! ## Measurement reader (spec section 4.4) -/

/-- Modelled from the spec: `getBusMilliVolts` (src/INA.h line 149 returns a
`uint16_t`).  The raw signed 16-bit register value is scaled by the stored
bus-voltage LSB (tens of microvolts per count, so `/ 100` yields
millivolts) and the sign is forced non-negative. -/
def getBusMilliVolts (d : InaDet) (raw : Int) : Nat :=
  (raw * (d.busVoltage_LSB : Int) / 100).toNat

/-- Modelled from the spec: `getShuntMicroVolts` (src/INA.h line 150 returns
an `int32_t`).  The raw signed 16-bit register value is scaled by the
stored shunt-voltage LSB (tenths of microvolts per count, so `/ 10` yields
microvolts), sign preserved. -/
def getShuntMicroVolts (d : InaDet) (raw : Int) : Int :=
  raw * (d.shuntVoltage_LSB : Int) / 10

/-- Modelled from the spec: `getBusMicroAmps` (src/INA.h line 151).  A read
before calibration (`calibration = 0`) reports `UncalibratedRead`;
otherwise the raw signed register value times the stored current LSB
(microamps per count), sign preserved. -/
def getBusMicroAmps (d : InaDet) (raw : Int) : Except InaError Int :=
  if d.calibration = 0 then .error .UncalibratedRead
  else .ok (raw * (d.current_LSB : Int))

/-- Modelled from the spec: `getBusMicroWatts` (src/INA.h line 152).  A read
before calibration reports `UncalibratedRead`; otherwise the raw register
value times the stored power LSB (microwatts per count). -/
def getBusMicroWatts (d : InaDet) (raw : Int) : Except InaError Int :=
  if d.calibration = 0 then .error .UncalibratedRead
  else .ok (raw * (d.power_LSB : Int))

/-! ## Register transport and alert configurator (spec sections 4.5, 6) -/

/-- The device's register file together with a count of words written, the
observable trace of the register transport's `writeWord` primitive. -/
structure BusState where
  regs : Nat → Nat
  writeCount : Nat

/-- `writeWord` of the register transport: stores a 16-bit word at a
register address and is counted as one bus write. -/
def writeWord (addr data : Nat) (s : BusState) : BusState where
  regs := fun k => if k = addr then data % 65536 else s.regs k
  writeCount := s.writeCount + 1

/-- Modelled from the spec: whether the model exposes a mask/enable register
(src/INA.h line 97 notes the register is "Not found on all devices"; the
INA219 class lacks it, the 226 class has it, and an unknown model is
treated conservatively as lacking it). -/
def hasMaskEnableRegister : InaType → Bool
  | .INA219 => false
  | .UNKNOWN => false
  | _ => true

/-- Modelled from the spec: `AlertOnShuntOverVoltage` (src/INA.h line 158,
body not in src/).  When the model lacks a mask/enable register the call
fails with no register write attempted; otherwise the threshold is
converted to a raw limit via the shunt LSB, the limit register is written
when arming, and the shunt-over-voltage enable bit of the mask/enable
register is set or cleared by a read-modify-write. -/
def alertOnShuntOverVoltage (d : InaDet) (alertState : Bool) (milliVolts : Int)
    (s : BusState) : Bool × BusState :=
  if hasMaskEnableRegister d.type = false then (false, s)
  else
    let cur := s.regs INA_MASK_ENABLE_REGISTER
    let bit := 2 ^ INA_ALERT_SHUNT_OVER_VOLT_BIT
    let newMask := if alertState then cur ||| bit else cur &&& (65535 - bit)
    let rawLimit := (milliVolts * 10000 / (d.shuntVoltage_LSB : Int)).toNat % 65536
    let s1 := if alertState then writeWord INA_ALERT_LIMIT_REGISTER rawLimit s else s
    (true, writeWord INA_MASK_ENABLE_REGISTER newMask s1)

/-! ## Persistence adapter (spec sections 6, 4.2) -/

/-- The non-volatile store consumed by the persistence adapter: an opaque
descriptor per slot index. -/
abbrev EEPROM := Nat → Option InaDet

/-- Modelled from the spec: `writeInatoEEPROM` (src/INA.h line 179, body not
in src/) saves the descriptor to the stable slot keyed by device number. -/
def writeInatoEEPROM (deviceNumber : Nat) (d : InaDet) (e : EEPROM) : EEPROM :=
  fun k => if k = deviceNumber then some d else e k

/-- Modelled from the spec: `readInafromEEPROM` (src/INA.h line 178, body not
in src/) retrieves the descriptor stored at the slot keyed by device
number. -/
def readInafromEEPROM (deviceNumber : Nat) (e : EEPROM) : Option InaDet :=
  e deviceNumber

/-! ## Device descriptor store (spec section 3) -/

/-- One slot of the descriptor store: the descriptor plus the history fact
"a calibration has succeeded on this slot", which the spec's invariant
(section 3) relates to a zero calibration register value. -/
structure Slot where
  det : InaDet
  calibrated : Bool
deriving DecidableEq, Repr

/-- The device descriptor store: a fixed-capacity ordered collection of
per-chip records indexable by position.  The count of populated slots is
`_DeviceCount` in src/INA.h line 186, initialized to zero. -/
structure Store where
  capacity : Nat
  slots : List Slot
deriving DecidableEq, Repr

/-- The number of populated slots (`_DeviceCount`). -/
def Store.count (s : Store) : Nat := s.slots.length

/-- The store at startup: no slot populated. -/
def initStore (capacity : Nat) : Store := ⟨capacity, []⟩

/-- Replace the slot at position `i` by `f` of it, leaving every other
position (and the length) unchanged. -/
def modifyNthSlot (f : Slot → Slot) : Nat → List Slot → List Slot
  | _, [] => []
  | 0, sl :: rest => f sl :: rest
  | n + 1, sl :: rest => sl :: modifyNthSlot f n rest

/-- Modelled from the spec: per-device operations take a `deviceNumber`
selector that is either an explicit position or the sentinel `UINT8_MAX`
meaning "apply to every known device" (the default of the mutating methods
in src/INA.h lines 140-172). -/
def applySelected (f : Slot → Slot) (deviceNumber : Nat) (s : Store) : Store :=
  if deviceNumber = UINT8_MAX then { s with slots := s.slots.map f }
  else { s with slots := modifyNthSlot f deviceNumber s.slots }

/-- Modelled from the spec: `setMode` stores the new operating mode (the
three mode bits, src/INA.h `INA_CONFIG_MODE_MASK`) in the descriptor. -/
def setModeSlot (mode : Nat) (sl : Slot) : Slot :=
  { sl with det := { sl.det with operatingMode := mode % 8 } }

/-- Modelled from the spec: a successful calibration overwrites the slot's
derived constants and marks it calibrated; a failed calibration leaves the
slot untouched (no partial write, spec section 7). -/
def calibSlot (maxBusAmps microOhmR : Nat) (sl : Slot) : Slot :=
  match calibrateDet sl.det maxBusAmps microOhmR with
  | .ok d => ⟨d, true⟩
  | .error _ => sl

/-- Modelled from the spec: `reset` returns the device to power-on defaults;
on the descriptor this restores the default continuous-both operating
mode. -/
def resetSlot (sl : Slot) : Slot :=
  { sl with det := { sl.det with operatingMode := INA_MODE_CONTINUOUS_BOTH } }

/-- The store-level operations the claims quantify over. -/
inductive Op where
  | identify (model : InaType) (address : Nat)
  | calibrateOp (deviceNumber maxBusAmps microOhmR : Nat)
  | setModeOp (mode deviceNumber : Nat)
  | resetOp (deviceNumber : Nat)
deriving DecidableEq, Repr

/-- Modelled from the spec: one step of the driver on the descriptor store.
Identification appends a fresh uncalibrated descriptor while capacity
remains (the store never shrinks); the other operations are dispatched
through the device-number selector. -/
def stepStore (s : Store) : Op → Store
  | .identify model address =>
      if s.count < s.capacity then
        { s with slots := s.slots ++ [⟨identifyDet model address, false⟩] }
      else s
  | .calibrateOp n maxBusAmps microOhmR =>
      applySelected (calibSlot maxBusAmps microOhmR) n s
  | .setModeOp mode n => applySelected (setModeSlot mode) n s
  | .resetOp n => applySelected resetSlot n s

/-- Run a sequence of operations from the empty store of a given capacity. -/
def runOps (capacity : Nat) (ops : List Op) : Store :=
  ops.foldl stepStore (initStore capacity)

/-! ## Public interface surface (src/INA.h lines 138-172) -/

/-- One public per-device method of the header: its name and the default
value of its `deviceNumber` parameter. -/
structure PublicOp where
  opName : String
  defaultDeviceNumber : Nat
deriving DecidableEq, Repr

/-- The public per-device methods of src/INA.h with the default device
selector each declares: the mutating and waiting methods default to the
sentinel `UINT8_MAX`, the read accessors and `reset` default to device 0. -/
def publicOps : List PublicOp :=
  [⟨"begin", 255⟩, ⟨"setMode", 255⟩, ⟨"setAveraging", 255⟩,
   ⟨"setBusConversion", 255⟩, ⟨"setShuntConversion", 255⟩,
   ⟨"getBusMilliVolts", 0⟩, ⟨"getShuntMicroVolts", 0⟩,
   ⟨"getBusMicroAmps", 0⟩, ⟨"getBusMicroWatts", 0⟩,
   ⟨"getDeviceName", 0⟩, ⟨"reset", 0⟩, ⟨"waitForConversion", 255⟩,
   ⟨"AlertOnConversion", 255⟩, ⟨"AlertOnShuntOverVoltage", 255⟩,
   ⟨"AlertOnShuntUnderVoltage", 255⟩, ⟨"AlertOnBusOverVoltage", 255⟩,
   ⟨"AlertOnBusUnderVoltage", 255⟩, ⟨"AlertOnPowerOverLimit", 255⟩]

/-! ## Concrete exemplar device used by the witnesses -/

/-- The empty non-volatile store. -/
def emptyEEPROM : EEPROM := fun _ => none

/-- A freshly calibrated 226-class descriptor: `begin` with the spec's
scenario parameters maxBusAmps = 20, shuntResistanceMicroOhms = 100000. -/
def det226c : InaDet :=
  (beginDet .INA226 64 20 100000).toOption.getD (identifyDet .INA226 64)

/-- The store slot holding `det226c` after identify-then-calibrate. -/
def slot226c : Slot := calibSlot 20 100000 ⟨identifyDet .INA226 64, false⟩

/-! ## Helper lemmas -/

/-- A successful run of the calibration engine yields a calibration register
value in [1, 0x7FFF], the spec's current-LSB formula, and the power LSB as
`currentLSB * powerConstant`. -/
theorem calibrate_ok_shape {m : InaType} {a r : Nat} {c : CalibOut}
    (h : calibrate m a r = .ok c) :
    0 < c.calibration ∧ c.calibration ≤ 0x7FFF ∧
    c.currentLSB = roundUpToMultiple (a * 1000000 / 32767) (minLSBStepOf m) ∧
    c.powerLSB = c.currentLSB * powerConstantOf m := by
  simp only [calibrate] at h
  split_ifs at h with h1 h2 h3 h4
  push_neg at h4
  have hc := Except.ok.inj h
  subst hc
  exact ⟨Nat.pos_of_ne_zero h4.1, h4.2, rfl, rfl⟩

/-- A successful `calibrateDet` produces a calibration register value in
[1, 0x7FFF] and stores the truncated calibration inputs. -/
theorem calibrateDet_ok {d d2 : InaDet} {a r : Nat}
    (h : calibrateDet d a r = .ok d2) :
    0 < d2.calibration ∧ d2.calibration ≤ 0x7FFF ∧
    d2.maxBusAmps = a % 256 ∧ d2.microOhmR = r % 4294967296 := by
  unfold calibrateDet at h
  cases hc : calibrate d.type (a % 256) (r % 4294967296) with
  | error e => rw [hc] at h; cases h
  | ok c =>
    rw [hc] at h
    cases h
    obtain ⟨h1, h2, -, -⟩ := calibrate_ok_shape hc
    exact ⟨h1, h2, rfl, rfl⟩

theorem length_modifyNthSlot (f : Slot → Slot) (i : Nat) (l : List Slot) :
    (modifyNthSlot f i l).length = l.length := by
  induction l generalizing i with
  | nil => cases i <;> simp [modifyNthSlot]
  | cons x xs ih =>
    cases i with
    | zero => simp [modifyNthSlot]
    | succ n => simpa [modifyNthSlot] using ih n

theorem mem_modifyNthSlot {f : Slot → Slot} {P : Slot → Prop}
    (hf : ∀ x, P x → P (f x)) (i : Nat) (l : List Slot)
    (hl : ∀ x ∈ l, P x) : ∀ y ∈ modifyNthSlot f i l, P y := by
  induction l generalizing i with
  | nil => intro y hy; cases i <;> simp [modifyNthSlot] at hy
  | cons x xs ih =>
    intro y hy
    cases i with
    | zero =>
      simp only [modifyNthSlot, List.mem_cons] at hy
      rcases hy with rfl | hy
      · exact hf x (hl x (by simp))
      · exact hl y (by simp [hy])
    | succ n =>
      simp only [modifyNthSlot, List.mem_cons] at hy
      rcases hy with rfl | hy
      · exact hl y (by simp)
      · exact ih n (fun z hz => hl z (by simp [hz])) y hy

theorem getElem?_modifyNthSlot (f : Slot → Slot) (i j : Nat) (l : List Slot)
    (h : j ≠ i) : (modifyNthSlot f i l)[j]? = l[j]? := by
  induction l generalizing i j with
  | nil => cases i <;> simp [modifyNthSlot]
  | cons x xs ih =>
    cases i with
    | zero =>
      cases j with
      | zero => exact absurd rfl h
      | succ m => simp [modifyNthSlot]
    | succ n =>
      cases j with
      | zero => simp [modifyNthSlot]
      | succ m => simpa [modifyNthSlot] using ih n m (by omega)

/-- The slot invariant of spec section 3: the calibration register value
never exceeds 0x7FFF, and it is zero exactly when no calibration has
succeeded on the slot. -/
def slotInvP (sl : Slot) : Prop :=
  sl.det.calibration ≤ 0x7FFF ∧
  (sl.calibrated = true → 0 < sl.det.calibration) ∧
  (sl.det.calibration = 0 ↔ sl.calibrated = false)

theorem slotInvP_identify (m : InaType) (a : Nat) :
    slotInvP ⟨identifyDet m a, false⟩ := by
  refine ⟨by simp [identifyDet], ?_, by simp [identifyDet]⟩
  intro h
  cases h

theorem slotInvP_setMode (mode : Nat) (sl : Slot) (h : slotInvP sl) :
    slotInvP (setModeSlot mode sl) := h

theorem slotInvP_reset (sl : Slot) (h : slotInvP sl) :
    slotInvP (resetSlot sl) := h

theorem slotInvP_calib (a r : Nat) (sl : Slot) (h : slotInvP sl) :
    slotInvP (calibSlot a r sl) := by
  unfold calibSlot
  cases hc : calibrateDet sl.det a r with
  | error e => exact h
  | ok d2 =>
    obtain ⟨h1, h2, -, -⟩ := calibrateDet_ok hc
    exact ⟨h2, fun _ => h1, by simp; omega⟩

theorem applySelected_forall {f : Slot → Slot} {P : Slot → Prop}
    (hf : ∀ x, P x → P (f x)) (n : Nat) (s : Store)
    (h : ∀ sl ∈ s.slots, P sl) :
    ∀ sl ∈ (applySelected f n s).slots, P sl := by
  unfold applySelected
  split
  · intro sl hsl
    simp only [List.mem_map] at hsl
    obtain ⟨x, hx, rfl⟩ := hsl
    exact hf x (h x hx)
  · exact mem_modifyNthSlot hf n s.slots h

/-- Every operation preserves the slot invariant of every populated slot. -/
theorem storeInv_step (s : Store) (op : Op)
    (h : ∀ sl ∈ s.slots, slotInvP sl) :
    ∀ sl ∈ (stepStore s op).slots, slotInvP sl := by
  cases op with
  | identify m a =>
    simp only [stepStore]
    split
    · intro sl hsl
      rcases List.mem_append.mp hsl with h1 | h1
      · exact h sl h1
      · simp only [List.mem_singleton] at h1
        subst h1
        exact slotInvP_identify m a
    · exact h
  | calibrateOp n a r => exact applySelected_forall (slotInvP_calib a r) n s h
  | setModeOp mode n => exact applySelected_forall (slotInvP_setMode mode) n s h
  | resetOp n => exact applySelected_forall slotInvP_reset n s h

theorem storeInv_foldl (ops : List Op) :
    ∀ s : Store, (∀ sl ∈ s.slots, slotInvP sl) →
      ∀ sl ∈ (ops.foldl stepStore s).slots, slotInvP sl := by
  induction ops with
  | nil => exact fun s h => h
  | cons op rest ih => exact fun s h => ih _ (storeInv_step s op h)

theorem capacity_stepStore (s : Store) (op : Op) :
    (stepStore s op).capacity = s.capacity := by
  cases op with
  | identify m a => simp only [stepStore]; split <;> rfl
  | calibrateOp n a r => simp only [stepStore, applySelected]; split <;> rfl
  | setModeOp mode n => simp only [stepStore, applySelected]; split <;> rfl
  | resetOp n => simp only [stepStore, applySelected]; split <;> rfl

theorem count_applySelected (f : Slot → Slot) (n : Nat) (s : Store) :
    (applySelected f n s).count = s.count := by
  unfold applySelected Store.count
  split
  · simp
  · exact length_modifyNthSlot f n s.slots

theorem count_stepStore_mono (s : Store) (op : Op) :
    s.count ≤ (stepStore s op).count := by
  cases op with
  | identify m a =>
    simp only [stepStore]
    split
    · simp [Store.count]
    · exact Nat.le_refl _
  | calibrateOp n a r =>
    simp only [stepStore]
    exact Nat.le_of_eq (count_applySelected _ n s).symm
  | setModeOp mode n =>
    simp only [stepStore]
    exact Nat.le_of_eq (count_applySelected _ n s).symm
  | resetOp n =>
    simp only [stepStore]
    exact Nat.le_of_eq (count_applySelected _ n s).symm

theorem countcap_stepStore (s : Store) (op : Op) (h : s.count ≤ s.capacity) :
    (stepStore s op).count ≤ (stepStore s op).capacity := by
  rw [capacity_stepStore]
  cases op with
  | identify m a =>
    simp only [stepStore]
    split
    · rename_i h2
      simp only [Store.count, List.length_append, List.length_cons, List.length_nil] at h2 ⊢
      omega
    · exact h
  | calibrateOp n a r =>
    simp only [stepStore]
    rw [count_applySelected]
    exact h
  | setModeOp mode n =>
    simp only [stepStore]
    rw [count_applySelected]
    exact h
  | resetOp n =>
    simp only [stepStore]
    rw [count_applySelected]
    exact h

theorem countcap_foldl (ops : List Op) :
    ∀ s : Store, s.count ≤ s.capacity →
      (ops.foldl stepStore s).count ≤ (ops.foldl stepStore s).capacity := by
  induction ops with
  | nil => exact fun s h => h
  | cons op rest ih => exact fun s h => ih _ (countcap_stepStore s op h)

theorem capacity_foldl (ops : List Op) :
    ∀ s : Store, (ops.foldl stepStore s).capacity = s.capacity := by
  induction ops with
  | nil => exact fun s => rfl
  | cons op rest ih => exact fun s => (ih _).trans (capacity_stepStore s op)

/-! ## Claim theorems -/

/-- C1: for every model, maximum bus current and shunt resistance accepted by
calibration, the computed current LSB equals `maxBusAmps * 1000000 / 32767`
rounded up to the nearest multiple of the model's minimum LSB step; and for
a 226-class chip with maxBusAmps = 20, shuntResistanceMicroOhms = 100000,
the current LSB is 610 microamps, the calibration register value lies in
[1, 32767], and a raw current register reading of 1000 scales to 610000
microamps, i.e. 610 milliamps. -/
theorem currentLSB_formula :
    (∀ (m : InaType) (a r : Nat) (c : CalibOut), calibrate m a r = .ok c →
      c.currentLSB = roundUpToMultiple (a * 1000000 / 32767) (minLSBStepOf m)) ∧
    (∃ d : InaDet, beginDet .INA226 64 20 100000 = .ok d ∧
      d.current_LSB = 610 ∧ 1 ≤ d.calibration ∧ d.calibration ≤ 32767 ∧
      getBusMicroAmps d 1000 = .ok 610000) := by
  constructor
  · intro m a r c h
    exact (calibrate_ok_shape h).2.2.1
  · exact ⟨_, rfl, rfl, by decide, by decide, rfl⟩

/-- C1 witness: the formula component instantiated at the 226-class
scenario inputs. -/
theorem currentLSB_formula_witness :
    calibrate .INA226 20 100000 = .ok ⟨610, 15250, 83⟩ ∧
    (⟨610, 15250, 83⟩ : CalibOut).currentLSB =
      roundUpToMultiple (20 * 1000000 / 32767) (minLSBStepOf .INA226) :=
  ⟨rfl, currentLSB_formula.1 .INA226 20 100000 ⟨610, 15250, 83⟩ rfl⟩

/-- C2: after any sequence of operations from startup, every populated
descriptor's calibration register value is at most 0x7FFF, it is strictly
positive for a successfully calibrated device, and it is zero exactly when
the device has not yet been calibrated. -/
theorem calibration_register_invariant (cap : Nat) (ops : List Op) :
    ∀ sl ∈ (runOps cap ops).slots,
      sl.det.calibration ≤ 0x7FFF ∧
      (sl.calibrated = true → 0 < sl.det.calibration) ∧
      (sl.det.calibration = 0 ↔ sl.calibrated = false) :=
  storeInv_foldl ops (initStore cap) (by intro sl hsl; cases hsl)

/-- C2 witness: the invariant at the slot produced by identifying and then
calibrating one 226-class device. -/
theorem calibration_register_invariant_witness :
    slot226c.det.calibration ≤ 0x7FFF ∧
    (slot226c.calibrated = true → 0 < slot226c.det.calibration) ∧
    (slot226c.det.calibration = 0 ↔ slot226c.calibrated = false) :=
  calibration_register_invariant 1
    [.identify .INA226 64, .calibrateOp 0 20 100000] slot226c (by decide)

/-- C3: for every model and every maximum bus current, calibration with a
shunt resistance of zero fails with the explicit CalibrationOutOfRange
error; `calibrate` is a total function, so no unguarded division can
crash. -/
theorem zero_shunt_resistance_rejected (m : InaType) (a : Nat) :
    calibrate m a 0 = .error .CalibrationOutOfRange := by
  by_cases h : a = 0 <;> simp [calibrate, h]

/-- C5: reading bus current or power from a descriptor whose calibration
register value is zero reports the distinct UncalibratedRead error instead
of a raw-scaled value. -/
theorem uncalibrated_read_reports_error (d : InaDet) (raw : Int)
    (h : d.calibration = 0) :
    getBusMicroAmps d raw = .error .UncalibratedRead ∧
    getBusMicroWatts d raw = .error .UncalibratedRead := by
  simp [getBusMicroAmps, getBusMicroWatts, h]

/-- C5 witness: a freshly identified, never calibrated 226-class descriptor
read at raw register value 1000. -/
theorem uncalibrated_read_reports_error_witness :
    getBusMicroAmps (identifyDet .INA226 64) 1000 = .error .UncalibratedRead ∧
    getBusMicroWatts (identifyDet .INA226 64) 1000 = .error .UncalibratedRead :=
  uncalibrated_read_reports_error (identifyDet .INA226 64) 1000 rfl

/-- C4: the descriptor store is fixed-capacity (capacity invariant under any
run), never shrinks under any operation, holds at most its capacity of
simultaneously attached chips, is populated incrementally by identification
calls appending the new record at the next position, and an operation
addressed to one explicit slot leaves every other slot's record
unchanged. -/
theorem descriptor_store_lifecycle :
    (∀ (cap : Nat) (ops : List Op), (runOps cap ops).capacity = cap) ∧
    (∀ (s : Store) (op : Op), s.count ≤ (stepStore s op).count) ∧
    (∀ (cap : Nat) (ops : List Op), (runOps cap ops).count ≤ cap) ∧
    (∀ (s : Store) (m : InaType) (a : Nat), s.count < s.capacity →
      (stepStore s (.identify m a)).count = s.count + 1 ∧
      (stepStore s (.identify m a)).slots[s.count]? =
        some ⟨identifyDet m a, false⟩) ∧
    (∀ (s : Store) (mode n j : Nat), n ≠ UINT8_MAX → j ≠ n →
      (stepStore s (.setModeOp mode n)).slots[j]? = s.slots[j]?) := by
  refine ⟨?_, count_stepStore_mono, ?_, ?_, ?_⟩
  · intro cap ops
    exact capacity_foldl ops (initStore cap)
  · intro cap ops
    have h1 := countcap_foldl ops (initStore cap) (Nat.zero_le cap)
    rwa [capacity_foldl] at h1
  · intro s m a h
    constructor
    · simp only [stepStore]
      rw [if_pos h]
      simp [Store.count]
    · simp only [stepStore, if_pos h]
      exact List.getElem?_concat_length s.slots _
  · intro s mode n j hn hj
    simp only [stepStore, applySelected, if_neg hn]
    exact getElem?_modifyNthSlot _ n j s.slots hj

/-- C4 witness: identify appends at the next position of an empty two-slot
store, and an explicit-index mode change leaves position 1 unchanged. -/
theorem descriptor_store_lifecycle_witness :
    (stepStore (initStore 2) (.identify .INA226 64)).count
      = (initStore 2).count + 1 ∧
    (stepStore (initStore 2) (.setModeOp 3 0)).slots[1]?
      = (initStore 2).slots[1]? :=
  ⟨(descriptor_store_lifecycle.2.2.2.1 (initStore 2) .INA226 64 (by decide)).1,
   descriptor_store_lifecycle.2.2.2.2 (initStore 2) 3 0 1 (by decide) (by decide)⟩

/-- C6: the measurement reader returns the raw signed 16-bit register value
times the stored LSB constant, sign preserved for shunt voltage and
current, and the result forced non-negative for bus voltage. -/
theorem measurement_reader_scaling (d : InaDet) (raw : Int) :
    getShuntMicroVolts d raw = raw * (d.shuntVoltage_LSB : Int) / 10 ∧
    (0 ≤ raw → 0 ≤ getShuntMicroVolts d raw) ∧
    (raw ≤ 0 → getShuntMicroVolts d raw ≤ 0) ∧
    (d.calibration ≠ 0 →
      getBusMicroAmps d raw = .ok (raw * (d.current_LSB : Int))) ∧
    (d.calibration ≠ 0 →
      getBusMicroWatts d raw = .ok (raw * (d.power_LSB : Int))) ∧
    (0 ≤ raw → 0 ≤ raw * (d.current_LSB : Int)) ∧
    (raw ≤ 0 → raw * (d.current_LSB : Int) ≤ 0) ∧
    0 ≤ (getBusMilliVolts d raw : Int) ∧
    (0 ≤ raw →
      (getBusMilliVolts d raw : Int) = raw * (d.busVoltage_LSB : Int) / 100) := by
  refine ⟨rfl, ?_, ?_, ?_, ?_, ?_, ?_, ?_, ?_⟩
  · intro h
    exact Int.ediv_nonneg (mul_nonneg h (Int.natCast_nonneg _)) (by norm_num)
  · intro h
    have hx : raw * (d.shuntVoltage_LSB : Int) ≤ 0 := by
      have h2 := mul_le_mul_of_nonneg_right h
        (Int.natCast_nonneg (d.shuntVoltage_LSB))
      simpa using h2
    have h2 := Int.ediv_le_ediv (by norm_num : (0 : Int) < 10) hx
    simpa [getShuntMicroVolts] using h2
  · intro h
    simp [getBusMicroAmps, h]
  · intro h
    simp [getBusMicroWatts, h]
  · intro h
    exact mul_nonneg h (Int.natCast_nonneg _)
  · intro h
    have h2 := mul_le_mul_of_nonneg_right h (Int.natCast_nonneg (d.current_LSB))
    simpa using h2
  · exact Int.natCast_nonneg _
  · intro h
    have hx : 0 ≤ raw * (d.busVoltage_LSB : Int) / 100 :=
      Int.ediv_nonneg (mul_nonneg h (Int.natCast_nonneg _)) (by norm_num)
    simp [getBusMilliVolts, Int.toNat_of_nonneg hx]

/-- C6 witness: a negative raw reading on the calibrated 226-class
descriptor keeps its sign through the shunt and current scaling while the
bus-voltage result stays non-negative. -/
theorem measurement_reader_scaling_witness :
    getShuntMicroVolts det226c (-2) ≤ 0 ∧
    getBusMicroAmps det226c (-2) = .ok ((-2) * (det226c.current_LSB : Int)) ∧
    0 ≤ (getBusMilliVolts det226c (-2) : Int) :=
  ⟨(measurement_reader_scaling det226c (-2)).2.2.1 (by decide),
   (measurement_reader_scaling det226c (-2)).2.2.2.1 (by decide),
   (measurement_reader_scaling det226c (-2)).2.2.2.2.2.2.2.1⟩

theorem testBit15_or32768 (x : Nat) :
    ((x ||| 32768) % 65536).testBit 15 = true := by
  have h1 : (65536 : Nat) = 2 ^ 16 := by norm_num
  have h2 : (32768 : Nat) = 2 ^ 15 := by norm_num
  rw [h1, Nat.testBit_mod_two_pow, h2, Nat.testBit_or, Nat.testBit_two_pow_self]
  simp

theorem testBit15_and32767 (x : Nat) :
    ((x &&& 32767) % 65536).testBit 15 = false := by
  have h1 : (65536 : Nat) = 2 ^ 16 := by norm_num
  rw [h1, Nat.testBit_mod_two_pow, Nat.testBit_and]
  have h3 : (32767 : Nat).testBit 15 = false := by decide
  simp [h3]

/-- C7: arming the shunt-over-voltage alert on a model that lacks a
mask/enable register returns false with zero register writes, the missing
feature detected from the model tag alone; on a model that has the
register the call returns true, performs bus writes, and leaves the
shunt-over-voltage enable bit of the mask/enable register equal to the
requested alert state. -/
theorem alert_arming_feature_detection (d : InaDet) (b : Bool) (mv : Int)
    (s : BusState) :
    (hasMaskEnableRegister d.type = false →
      alertOnShuntOverVoltage d b mv s = (false, s)) ∧
    (hasMaskEnableRegister d.type = true →
      (alertOnShuntOverVoltage d b mv s).1 = true ∧
      s.writeCount < (alertOnShuntOverVoltage d b mv s).2.writeCount ∧
      ((alertOnShuntOverVoltage d b mv s).2.regs
          INA_MASK_ENABLE_REGISTER).testBit INA_ALERT_SHUNT_OVER_VOLT_BIT
        = b) := by
  constructor
  · intro h
    simp [alertOnShuntOverVoltage, h]
  · intro h
    cases b with
    | true =>
      refine ⟨by simp [alertOnShuntOverVoltage, h], ?_, ?_⟩
      · simp [alertOnShuntOverVoltage, h, writeWord]
        omega
      · simp [alertOnShuntOverVoltage, h, writeWord,
          INA_MASK_ENABLE_REGISTER, INA_ALERT_SHUNT_OVER_VOLT_BIT,
          INA_ALERT_LIMIT_REGISTER]
        exact testBit15_or32768 _
    | false =>
      refine ⟨by simp [alertOnShuntOverVoltage, h], ?_, ?_⟩
      · simp [alertOnShuntOverVoltage, h, writeWord]
      · simp [alertOnShuntOverVoltage, h, writeWord,
          INA_MASK_ENABLE_REGISTER, INA_ALERT_SHUNT_OVER_VOLT_BIT,
          INA_ALERT_LIMIT_REGISTER]
        exact testBit15_and32767 _

/-- The all-zero register file with no writes performed, for the alert
witnesses. -/
def bus0 : BusState := ⟨fun _ => 0, 0⟩

/-- An identified INA219-class descriptor (a model without a mask/enable
register). -/
def det219 : InaDet := identifyDet .INA219 65

/-- C7 witness: requesting the alert at -200 mV fails without any write on
the INA219-class descriptor and succeeds on the 226-class one. -/
theorem alert_arming_feature_detection_witness :
    alertOnShuntOverVoltage det219 true (-200) bus0 = (false, bus0) ∧
    (alertOnShuntOverVoltage det226c true (-200) bus0).1 = true :=
  ⟨(alert_arming_feature_detection det219 true (-200) bus0).1 rfl,
   ((alert_arming_feature_detection det226c true (-200) bus0).2 rfl).1⟩

/-- C8: calibrating a device, persisting its descriptor, reloading it, and
computing each measurement from a raw register value yields the same
physical value as computing it directly from the freshly calibrated
descriptor: persistence is lossless for all calibration fields. -/
theorem persistence_roundtrip_lossless (m : InaType) (addr a r n : Nat)
    (raw : Int) (e : EEPROM) (d : InaDet)
    (h : beginDet m addr a r = .ok d) :
    readInafromEEPROM n (writeInatoEEPROM n d e) = some d ∧
    ∀ d2 : InaDet, readInafromEEPROM n (writeInatoEEPROM n d e) = some d2 →
      getBusMicroAmps d2 raw = getBusMicroAmps d raw ∧
      getBusMicroWatts d2 raw = getBusMicroWatts d raw ∧
      getShuntMicroVolts d2 raw = getShuntMicroVolts d raw ∧
      getBusMilliVolts d2 raw = getBusMilliVolts d raw := by
  have hr : readInafromEEPROM n (writeInatoEEPROM n d e) = some d := by
    simp [readInafromEEPROM, writeInatoEEPROM]
  refine ⟨hr, ?_⟩
  intro d2 h2
  rw [hr] at h2
  obtain rfl := Option.some.inj h2
  exact ⟨rfl, rfl, rfl, rfl⟩

/-- C8 witness: the calibrated 226-class descriptor survives a save/load
round trip through slot 0 of the empty EEPROM. -/
theorem persistence_roundtrip_lossless_witness :
    readInafromEEPROM 0 (writeInatoEEPROM 0 det226c emptyEEPROM)
      = some det226c :=
  (persistence_roundtrip_lossless .INA226 64 20 100000 0 1000 emptyEEPROM
    det226c rfl).1

/-- C9: every public per-device method of the header carries a
device-number selector whose declared default is either the sentinel
UINT8_MAX or explicit device 0; the sentinel selector applies an operation
to every known device, and any other selector applies it only at that
explicit position. -/
theorem device_selector_sentinel :
    (∀ op ∈ publicOps,
      op.defaultDeviceNumber = UINT8_MAX ∨ op.defaultDeviceNumber = 0) ∧
    (∀ (f : Slot → Slot) (s : Store),
      applySelected f UINT8_MAX s = { s with slots := s.slots.map f }) ∧
    (∀ (f : Slot → Slot) (n : Nat) (s : Store), n ≠ UINT8_MAX →
      applySelected f n s = { s with slots := modifyNthSlot f n s.slots }) ∧
    (∀ (s : Store) (mode : Nat),
      (stepStore s (.setModeOp mode UINT8_MAX)).slots =
        s.slots.map (setModeSlot mode)) := by
  refine ⟨?_, ?_, ?_, ?_⟩
  · intro op hop
    fin_cases hop <;> simp [UINT8_MAX]
  · intro f s
    simp [applySelected]
  · intro f n s hn
    simp [applySelected, hn]
  · intro s mode
    simp [stepStore, applySelected]

/-- C9 witness: the sentinel resets every slot of a two-device store while
selector 0 touches only position 0. -/
theorem device_selector_sentinel_witness :
    applySelected resetSlot UINT8_MAX
        (runOps 2 [.identify .INA226 64, .identify .INA219 65]) =
      { runOps 2 [.identify .INA226 64, .identify .INA219 65] with
        slots := (runOps 2 [.identify .INA226 64,
          .identify .INA219 65]).slots.map resetSlot } ∧
    applySelected resetSlot 0
        (runOps 2 [.identify .INA226 64, .identify .INA219 65]) =
      { runOps 2 [.identify .INA226 64, .identify .INA219 65] with
        slots := modifyNthSlot resetSlot 0 (runOps 2 [.identify .INA226 64,
          .identify .INA219 65]).slots } :=
  ⟨device_selector_sentinel.2.1 resetSlot
      (runOps 2 [.identify .INA226 64, .identify .INA219 65]),
   device_selector_sentinel.2.2.1 resetSlot 0
      (runOps 2 [.identify .INA226 64, .identify .INA219 65]) (by decide)⟩

/-- C10: the maximum-bus-current parameter of `begin` is an unsigned 8-bit
whole number of amperes: the value the descriptor retains is the input
truncated to 8 bits, it never exceeds 255, and it equals the input exactly
when the input already fits in 8 bits. -/
theorem maxBusAmps_eight_bit :
    (∀ (m : InaType) (addr a r : Nat) (d : InaDet),
      beginDet m addr a r = .ok d →
        d.maxBusAmps = a % 256 ∧ d.maxBusAmps ≤ 255) ∧
    (∀ (m : InaType) (addr a r : Nat) (d : InaDet), a ≤ 255 →
      beginDet m addr a r = .ok d → d.maxBusAmps = a) := by
  constructor
  · intro m addr a r d h
    obtain ⟨-, -, h3, -⟩ := calibrateDet_ok h
    refine ⟨h3, ?_⟩
    rw [h3]
    omega
  · intro m addr a r d ha h
    obtain ⟨-, -, h3, -⟩ := calibrateDet_ok h
    rw [h3, Nat.mod_eq_of_lt (by omega)]

/-- C10 witness: the scenario descriptor retains maxBusAmps = 20 within the
8-bit range. -/
theorem maxBusAmps_eight_bit_witness :
    det226c.maxBusAmps = 20 % 256 ∧ det226c.maxBusAmps ≤ 255 :=
  maxBusAmps_eight_bit.1 .INA226 64 20 100000 det226c rfl

end INA
